import Mathlib

/-!
Verification of the ai-smart-surveillance repository.

This file shallowly embeds the Python sources
(`alert_manager.py`, `motion_analyzer.py`, `intruder_detector.py`,
`surveillance_system.py`) into Lean and proves or refutes the frozen
claims about them.

Modelling conventions:
* Machine pixels are `Nat` values (0..255); numpy uint8 wrap-around is
  written explicitly (`% 256`) where the source can overflow.
* Python exceptions become `Except`-valued functions.
* The stochastic draw `random.random() < 0.02` of
  `IntruderDetector.demo_intruder_detection` is passed in as an explicit
  boolean `draw` (the outcome of the comparison).
* Wall-clock timestamps (`datetime.now`, `cv2.getTickCount`) are not
  modelled: alert records and intruder dicts are embedded without their
  timestamp field.
* OpenCV primitives whose pixel-level behaviour no claim depends on
  (`GaussianBlur`, `dilate`, `findContours`, `putText`) are supplied by a
  `CVPrims` bundle; the primitives with claim-relevant behaviour
  (`cvtColor`, `threshold`, `absdiff`, `inRange`, `rectangle`) are
  implemented directly.
-/

namespace Surveillance

/-! ## Basic image types -/

/-- A BGR (or, after conversion, HSV) pixel: three 0..255 channels.
For BGR the components are (blue, green, red); for HSV they are
(hue, saturation, value), matching OpenCV channel order. -/
abbrev Pix : Type := Nat × Nat × Nat

/-- A colour frame: `px y x` is the pixel in row `y`, column `x`.
Mirrors a `h × w × 3` numpy array. -/
structure Frame where
  h : Nat
  w : Nat
  px : Nat → Nat → Pix

/-- A single-channel (grayscale / mask) image, mirroring a `h × w`
numpy array of uint8. -/
structure GrayImg where
  h : Nat
  w : Nat
  px : Nat → Nat → Nat

/-- Errors raised by the OpenCV layer.  `dimensionMismatch` is the
error `cv2.absdiff` raises when its operands have different shapes. -/
inductive CVError where
  | dimensionMismatch
deriving DecidableEq

/-- A contour found by `cv2.findContours`, carrying the two quantities
the source reads off it: `cv2.contourArea` (a float, embedded as `ℚ`)
and `cv2.boundingRect` as (x, y, w, h). -/
structure Contour where
  area : ℚ
  rect : Nat × Nat × Nat × Nat

/-- `cv2.cvtColor(frame, cv2.COLOR_BGR2GRAY)` per-pixel formula
(OpenCV fixed-point coefficients for 0.114 B + 0.587 G + 0.299 R). -/
def grayVal (p : Pix) : Nat :=
  (1868 * p.1 + 9617 * p.2.1 + 4899 * p.2.2 + 8192) / 16384

/-- `cv2.cvtColor(frame, cv2.COLOR_BGR2GRAY)`. -/
def cvtColorGray (f : Frame) : GrayImg :=
  ⟨f.h, f.w, fun y x => grayVal (f.px y x)⟩

/-- `cv2.cvtColor(frame, cv2.COLOR_BGR2HSV)` per-pixel: standard
hue/saturation/value formula for 8-bit images (H in 0..180, S,V in
0..255). -/
def bgr2hsv (p : Pix) : Pix :=
  let b := p.1
  let g := p.2.1
  let r := p.2.2
  let v := max b (max g r)
  let mn := min b (min g r)
  let s := if v = 0 then 0 else (255 * (v - mn) + v / 2) / v
  let hdeg : Int :=
    if v = mn then 0
    else if v = r then (60 * ((g : Int) - (b : Int))) / ((v : Int) - (mn : Int))
    else if v = g then 120 + (60 * ((b : Int) - (r : Int))) / ((v : Int) - (mn : Int))
    else 240 + (60 * ((r : Int) - (g : Int))) / ((v : Int) - (mn : Int))
  let hpos := if hdeg < 0 then hdeg + 360 else hdeg
  ((hpos / 2).toNat, s, v)

/-- `cv2.inRange(img, lo, hi)` per-pixel test: all three channels lie
inclusively between the bounds. -/
def inRangePix (lo hi p : Pix) : Bool :=
  decide (lo.1 ≤ p.1) && decide (p.1 ≤ hi.1) &&
  decide (lo.2.1 ≤ p.2.1) && decide (p.2.1 ≤ hi.2.1) &&
  decide (lo.2.2 ≤ p.2.2) && decide (p.2.2 ≤ hi.2.2)

/-- `cv2.threshold(img, t, 255, cv2.THRESH_BINARY)[1]` pixelwise. -/
def thresholdBin (g : GrayImg) (t : Nat) : GrayImg :=
  ⟨g.h, g.w, fun y x => if t < g.px y x then 255 else 0⟩

/-- The pure pixel arithmetic of `cv2.absdiff` (defined on the common
grid; only used when the shapes agree). -/
def absdiffImg (a b : GrayImg) : GrayImg :=
  ⟨a.h, a.w, fun y x => max (a.px y x) (b.px y x) - min (a.px y x) (b.px y x)⟩

/-- `cv2.absdiff(a, b)`: requires equal shapes, otherwise OpenCV raises
(the spec calls this failure `DimensionMismatch`). -/
def absdiff (a b : GrayImg) : Except CVError GrayImg :=
  if a.h = b.h ∧ a.w = b.w then .ok (absdiffImg a b) else .error .dimensionMismatch

/-- `cv2.rectangle(frame, (x1,y1), (x2,y2), c, -1)`: filled rectangle,
corners inclusive. -/
def rectFilled (f : Frame) (x1 y1 x2 y2 : Nat) (c : Pix) : Frame :=
  ⟨f.h, f.w, fun y x =>
    if x1 ≤ x ∧ x ≤ x2 ∧ y1 ≤ y ∧ y ≤ y2 then c else f.px y x⟩

/-- `cv2.rectangle(frame, (x1,y1), (x2,y2), c, 2)`: rectangle outline of
thickness 2, modelled as a one-pixel band around the ideal border. -/
def rectOutline (f : Frame) (x1 y1 x2 y2 : Nat) (c : Pix) : Frame :=
  ⟨f.h, f.w, fun y x =>
    if (x1 - 1 ≤ x ∧ x ≤ x2 + 1 ∧ y1 - 1 ≤ y ∧ y ≤ y2 + 1) ∧
       ¬ (x1 + 1 ≤ x ∧ x + 1 ≤ x2 ∧ y1 + 1 ≤ y ∧ y + 1 ≤ y2) then c
    else f.px y x⟩

/-- The OpenCV primitives whose internals no claim depends on.  Proof
fields record the two facts about them the source relies on: blurring
preserves the image shape, and `cv2.putText` only writes pixels near its
origin (within 30 rows of the text baseline and, horizontally, within 30
pixels per character of the string — generous bounds for the Hershey
fonts at the scales 0.5–0.7 used by the source). -/
structure CVPrims where
  gaussianBlur : GrayImg → GrayImg
  blur_h : ∀ g, (gaussianBlur g).h = g.h
  blur_w : ∀ g, (gaussianBlur g).w = g.w
  dilate : GrayImg → GrayImg
  findContours : GrayImg → List Contour
  putText : Frame → Nat × Nat → String → Pix → Frame
  putText_local : ∀ f org text c y x,
    (putText f org text c).px y x ≠ f.px y x →
    org.2 - 30 ≤ y ∧ y ≤ org.2 + 30 ∧ x ≤ org.1 + 30 * text.length

/-! ## AlertManager (`alert_manager.py`) -/

/-- One entry of `AlertManager.alert_history` (the `alert_data` dict;
the wall-clock `timestamp` field is not modelled). -/
structure AlertData where
  type : String
  message : String
deriving DecidableEq

/-- The `messages` dict of `AlertManager.get_alert_message`. -/
def alert_messages : List (String × String) :=
  [("motion_detected", "Motion detected in surveillance area"),
   ("intruder_detected", "INTRUDER DETECTED - Immediate attention required"),
   ("system_alert", "Surveillance system alert")]

/-- `AlertManager.get_alert_message`: dict lookup with default
`'Unknown alert type'`. -/
def get_alert_message (alert_type : String) : String :=
  (alert_messages.lookup alert_type).getD "Unknown alert type"

/-! ## The alert-cooldown controller
(`SmartSurveillance.handle_alerts` and the call site in
`surveillance_loop`) -/

/-- The state touched by `handle_alerts`: `self.alert_cooldown`, the
alert manager's `alert_history`, and `self.stats['alerts_sent']`.
(The remaining stats fields and the video plumbing are not read or
written by the alert-handling path.) -/
structure CtrlState where
  alert_cooldown : Int
  alert_history : List AlertData
  alerts_sent : Nat
deriving DecidableEq

/-- `AlertManager.send_alert`: builds the alert record and appends it to
the history. -/
def send_alert (alert_type : String) (s : CtrlState) : CtrlState :=
  { s with alert_history :=
      s.alert_history ++ [⟨alert_type, get_alert_message alert_type⟩] }

/-- The `for alert in alerts:` loop body of
`SmartSurveillance.handle_alerts`: when the cooldown is ≤ 0, send the
alert, bump `alerts_sent` and reset the cooldown to 30. -/
def handleAlertsLoop : List String → CtrlState → CtrlState
  | [], s => s
  | a :: rest, s =>
    if s.alert_cooldown ≤ 0 then
      handleAlertsLoop rest
        { send_alert a s with
            alerts_sent := s.alerts_sent + 1,
            alert_cooldown := 30 }
    else
      handleAlertsLoop rest s

/-- `SmartSurveillance.handle_alerts`: run the loop, then decrement the
cooldown once if it is positive. -/
def handle_alerts (alerts : List String) (s : CtrlState) : CtrlState :=
  let s1 := handleAlertsLoop alerts s
  if 0 < s1.alert_cooldown then
    { s1 with alert_cooldown := s1.alert_cooldown - 1 }
  else s1

/-- The alert-handling part of one iteration of
`SmartSurveillance.surveillance_loop`: `handle_alerts` is invoked only
when the frame produced a non-empty alert list (`if alerts:`). -/
def surveillance_step (alerts : List String) (s : CtrlState) : CtrlState :=
  if alerts.isEmpty then s else handle_alerts alerts s

/-- `SmartSurveillance.__init__`: `alert_cooldown = 0`, empty history,
zero counters. -/
def initCtrlState : CtrlState := ⟨0, [], 0⟩

/-- Controller state after processing frames `0, …, i-1`, frame `j`
carrying the event batch `batches j`. -/
def stateAt (batches : Nat → List String) : Nat → CtrlState
  | 0 => initCtrlState
  | n + 1 => surveillance_step (batches n) (stateAt batches n)

/-- Frame `i` emitted at least one alert (the `alerts_sent` counter
grew while processing it). -/
def emittedAt (batches : Nat → List String) (i : Nat) : Prop :=
  (stateAt batches i).alerts_sent < (stateAt batches (i + 1)).alerts_sent

/-- The cooldown trajectory when every frame carries at least one
event: reset to 30 and immediately decremented to 29 on a `Ready`
frame, otherwise decremented. -/
def cseq : Nat → Int
  | 0 => 0
  | n + 1 => if cseq n ≤ 0 then 29 else cseq n - 1

/-! ## IntruderDetector (`intruder_detector.py`) -/

/-- An entry of the `intruders` list built by
`IntruderDetector.detect_intruders` (the wall-clock `timestamp` field,
obtained from `cv2.getTickCount`, is not modelled). -/
structure Intruder where
  type : String
  confidence : ℚ
  location : Nat × Nat × Nat × Nat
deriving DecidableEq

/-- `IntruderDetector.get_demo_location`. -/
def get_demo_location : Nat × Nat × Nat × Nat := (300, 100, 350, 300)

/-- Mask value of one pixel of `mask = mask1 + mask2` in
`demo_intruder_detection`: each `cv2.inRange` mask contributes 0 or
255, and numpy adds the two uint8 masks with wrap-around (the two hue
bands are disjoint, so no wrap actually occurs). -/
def maskVal (hsvp : Pix) : Nat :=
  ((if inRangePix (0, 120, 70) (10, 255, 255) hsvp then 255 else 0) +
   (if inRangePix (170, 120, 70) (180, 255, 255) hsvp then 255 else 0)) % 256

/-- `np.sum(mask)` over the whole frame (numpy widens the uint8 mask to
a machine integer before summing, so the sum itself does not wrap). -/
def maskSum (f : Frame) : Nat :=
  ((List.range f.h).map (fun y =>
    ((List.range f.w).map (fun x => maskVal (bgr2hsv (f.px y x)))).sum)).sum

/-- `IntruderDetector.demo_intruder_detection`: returns `True` when the
mask sum exceeds 10000, otherwise falls through to the stochastic draw
`random.random() < 0.02`, whose outcome is the explicit argument
`draw`. -/
def demo_intruder_detection (f : Frame) (draw : Bool) : Bool :=
  if 10000 < maskSum f then true else draw

/-- The number of pixels whose HSV value lies in one of the two red hue
ranges.  This follows the spec's wording ("the count of pixels falling
in the red hue ranges"), to be compared against the source's
`np.sum(mask)` test; it is used only to state claim C4. -/
def redPixelCountSpec (f : Frame) : Nat :=
  ((List.range f.h).map (fun y =>
    ((List.range f.w).filter (fun x =>
      inRangePix (0, 120, 70) (10, 255, 255) (bgr2hsv (f.px y x)) ||
      inRangePix (170, 120, 70) (180, 255, 255) (bgr2hsv (f.px y x)))).length)).sum

/-- Renders a rational with two decimal places, standing in for the
Python format `f"{conf:.2f}"` in `draw_detections` (used only as text
payload for `putText`). -/
def format2f (q : ℚ) : String :=
  let c : Int := ⌊q * 100 + 1 / 2⌋
  toString (c / 100) ++ "." ++
    (if (c % 100).natAbs < 10 then "0" else "") ++ toString (c % 100).natAbs

/-- `IntruderDetector.draw_detections`: draws, for every intruder, a
red bounding box and a label directly on the frame it receives (no
copy), and returns that same frame. -/
def draw_detections (cv : CVPrims) (frame : Frame) (intruders : List Intruder) : Frame :=
  intruders.foldl (fun f i =>
    let f1 := rectOutline f i.location.1 i.location.2.1 i.location.2.2.1
        i.location.2.2.2 (0, 0, 255)
    cv.putText f1 (i.location.1, i.location.2.1 - 10)
      ("INTRUDER: " ++ format2f i.confidence) (0, 0, 255)) frame

/-- `IntruderDetector.detect_intruders`: builds the intruder list from
the demo heuristic (type `'person'`, confidence 0.85, demo location)
and draws the detections on the input frame itself; the returned
`detection_frame` is that same (now mutated) frame.  The unused
grayscale conversion at the top of the Python function is omitted. -/
def detect_intruders (cv : CVPrims) (frame : Frame) (draw : Bool) :
    List Intruder × Frame :=
  let intruders :=
    if demo_intruder_detection frame draw then
      [⟨"person", 85 / 100, get_demo_location⟩]
    else []
  (intruders, draw_detections cv frame intruders)

/-! ## MotionAnalyzer (`motion_analyzer.py`) -/

/-- `self.min_contour_area` set in `MotionAnalyzer.__init__`. -/
def min_contour_area : ℚ := 500

/-- `self.motion_threshold` set in `MotionAnalyzer.__init__` (assigned
but never read by the source). -/
def motion_threshold : Nat := 1000

/-- Body of the `for contour in contours:` loop of
`MotionAnalyzer.detect_motion`: a contour strictly larger than
`min_contour_area` sets the motion flag and draws its yellow bounding
box on the motion frame. -/
def motionStep (acc : Bool × Frame) (c : Contour) : Bool × Frame :=
  if min_contour_area < c.area then
    (true, rectOutline acc.2 c.rect.1 c.rect.2.1 (c.rect.1 + c.rect.2.2.1)
      (c.rect.2.1 + c.rect.2.2.2) (0, 255, 255))
  else acc

/-- `MotionAnalyzer.detect_motion`.  `prev` is `self.previous_frame`
(`None` before the first call).  The motion frame is `frame.copy()`: a
distinct buffer with the same contents, so drawing on it never touches
the caller's frame.  Returns (motion_detected, motion_frame, new value
of `self.previous_frame`); a shape change surfaces the `cv2.absdiff`
error. -/
def detect_motion (cv : CVPrims) (prev : Option GrayImg) (frame : Frame) :
    Except CVError (Bool × Frame × Option GrayImg) :=
  let motion_frame := frame
  let gray := cv.gaussianBlur (cvtColorGray frame)
  match prev with
  | none => .ok (false, motion_frame, some gray)
  | some pf =>
    match absdiff pf gray with
    | .error e => .error e
    | .ok frame_diff =>
      let thresh := cv.dilate (thresholdBin frame_diff 25)
      let contours := cv.findContours thresh
      let res := contours.foldl motionStep (false, motion_frame)
      .ok (res.1, res.2, some gray)

/-- The contour list `detect_motion` iterates over, as a function of
its inputs (threshold 25, then dilation, then `cv2.findContours`). -/
def motionContours (cv : CVPrims) (pf : GrayImg) (frame : Frame) : List Contour :=
  cv.findContours (cv.dilate
    (thresholdBin (absdiffImg pf (cv.gaussianBlur (cvtColorGray frame))) 25))

/-- Projection of a `detect_motion` result onto its motion flag. -/
def motionOf : Except CVError (Bool × Frame × Option GrayImg) → Option Bool
  | .ok t => some t.1
  | .error _ => none

/-! ## SmartSurveillance.process_frame and overlay
(`surveillance_system.py`) -/

/-- `self.stats` of `SmartSurveillance`. -/
structure Stats where
  frames_processed : Nat
  intruders_detected : Nat
  motion_events : Nat
  alerts_sent : Nat

/-- The statistics line rendered by `overlay_info`. -/
def statsText (st : Stats) : String :=
  "Frames: " ++ toString st.frames_processed ++
  " | Intruders: " ++ toString st.intruders_detected ++
  " | Alerts: " ++ toString st.alerts_sent

/-- The status banner text chosen by `overlay_info`. -/
def statusOf (motion_detected : Bool) (intruder_count : Nat) : String :=
  if 0 < intruder_count then
    "ALERT: " ++ toString intruder_count ++ " INTRUDERS"
  else if motion_detected then "MOTION DETECTED"
  else "SECURE"

/-- The status banner colour chosen by `overlay_info`. -/
def colorOf (motion_detected : Bool) (intruder_count : Nat) : Pix :=
  if 0 < intruder_count then (0, 0, 255)
  else if motion_detected then (0, 255, 255)
  else (0, 255, 0)

/-- `SmartSurveillance.overlay_info`: draws the black status banner,
the status text and the statistics line directly on the frame it
receives, and returns that same frame. -/
def overlay_info (cv : CVPrims) (stats : Stats) (frame : Frame)
    (motion_detected : Bool) (intruder_count : Nat) : Frame :=
  let f1 := rectFilled frame 0 0 640 40 (0, 0, 0)
  let f2 := cv.putText f1 (10, 25) (statusOf motion_detected intruder_count)
    (colorOf motion_detected intruder_count)
  cv.putText f2 (10, 460) (statsText stats) (255, 255, 255)

/-- Result of `SmartSurveillance.process_frame`.  `processed` is the
returned frame; `callerFrame` records the final contents of the frame
object the caller passed in.  In the source, `detect_intruders` and
`overlay_info` draw on that object in place (only the motion analyzer
copies), so the caller's buffer ends up equal to the processed frame. -/
structure ProcResult where
  processed : Frame
  callerFrame : Frame
  alerts : List String
  prevBuffer : Option GrayImg
  stats : Stats

/-- `SmartSurveillance.process_frame`: motion detection (on the intact
frame), then intruder detection (drawing on the frame in place), then
the overlay (drawing on the same frame).  `prev` is the motion
analyzer's buffer, `stats` the current statistics, `draw` the outcome
of the stochastic intruder draw.  The motion frame returned by
`detect_motion` is discarded, as in the source. -/
def process_frame (cv : CVPrims) (prev : Option GrayImg) (stats : Stats)
    (frame : Frame) (draw : Bool) : Except CVError ProcResult :=
  match detect_motion cv prev frame with
  | .error e => .error e
  | .ok (motion_detected, _motion_frame, prev') =>
    let stats1 := if motion_detected then
        { stats with motion_events := stats.motion_events + 1 } else stats
    let alerts1 := if motion_detected then ["motion_detected"] else []
    let intrRes := detect_intruders cv frame draw
    let intruders := intrRes.1
    let frame1 := intrRes.2
    let stats2 := if intruders.isEmpty then stats1 else
        { stats1 with intruders_detected := stats1.intruders_detected + 1 }
    let alerts2 := if intruders.isEmpty then alerts1 else
        alerts1 ++ ["intruder_detected"]
    let processed := overlay_info cv stats2 frame1 motion_detected intruders.length
    .ok ⟨processed, processed, alerts2, prev', stats2⟩

/-- Projection of a `process_frame` result onto its alert list. -/
def alertsOf : Except CVError ProcResult → Option (List String)
  | .ok r => some r.alerts
  | .error _ => none

/-- Pixel (row `y`, column `x`) of the caller's frame after
`process_frame`, when the call succeeded. -/
def callerAt (e : Except CVError ProcResult) (y x : Nat) : Option Pix :=
  match e with
  | .ok r => some (r.callerFrame.px y x)
  | .error _ => none

/-- Claim C9's reading of `process_frame`: the caller's frame is left
unchanged by a (successful) call. -/
def frameLeftUnchanged (cv : CVPrims) (prev : Option GrayImg) (stats : Stats)
    (frame : Frame) (draw : Bool) : Prop :=
  ∀ r, process_frame cv prev stats frame draw = .ok r → r.callerFrame = frame

/-! ## Concrete instances used by witnesses and counterexamples -/

/-- A trivial instantiation of the opaque OpenCV primitives: identity
blur and dilation, no contours, text rendering that writes nothing. -/
def cv0 : CVPrims where
  gaussianBlur := id
  blur_h := fun _ => rfl
  blur_w := fun _ => rfl
  dilate := id
  findContours := fun _ => []
  putText := fun f _ _ _ => f
  putText_local := fun _ _ _ _ _ _ h => absurd rfl h

/-- Zeroed statistics. -/
def stats0 : Stats := ⟨0, 0, 0, 0⟩

/-- A 480×640 frame of the demo background colour (30,30,30). -/
def fGrey : Frame := ⟨480, 640, fun _ _ => (30, 30, 30)⟩

/-- A 1×41 frame of pure red (BGR (0,0,255)): its HSV image is red at
every pixel, so `np.sum(mask)` is 41 · 255 = 10455 > 10000 while only
41 pixels are red. -/
def fRed : Frame := ⟨1, 41, fun _ _ => (0, 0, 255)⟩

/-- A 1×1 all-black frame: no red mask pixels at all. -/
def fBlack : Frame := ⟨1, 1, fun _ _ => (0, 0, 0)⟩

/-- A 1×1 grayscale buffer. -/
def pf0 : GrayImg := ⟨1, 1, fun _ _ => 0⟩

/-- A 1×1 black colour frame (same dimensions as `pf0`). -/
def f1x1 : Frame := ⟨1, 1, fun _ _ => (0, 0, 0)⟩

/-- A 2×2 black colour frame (different dimensions from `pf0`). -/
def f2x2 : Frame := ⟨2, 2, fun _ _ => (0, 0, 0)⟩

/-- Controller state with cooldown 5 (mid-suppression). -/
def s5 : CtrlState := ⟨5, [], 0⟩

/-! ## Helper lemmas about the alert controller -/

/-- While the cooldown is positive, the `for alert in alerts:` loop of
`handle_alerts` sends nothing and leaves the state untouched. -/
theorem handleAlertsLoop_suppressed (l : List String) (s : CtrlState)
    (h : 0 < s.alert_cooldown) : handleAlertsLoop l s = s := by
  induction l with
  | nil => rfl
  | cons a rest ih =>
    unfold handleAlertsLoop
    rw [if_neg (by omega)]
    exact ih

/-- Cooldown after one event-carrying frame: reset-then-decrement to 29
from `Ready`, plain decrement otherwise. -/
theorem step_cooldown (b : List String) (s : CtrlState) (hb : b ≠ []) :
    (surveillance_step b s).alert_cooldown =
      if s.alert_cooldown ≤ 0 then 29 else s.alert_cooldown - 1 := by
  obtain ⟨a, rest, rfl⟩ := List.exists_cons_of_ne_nil hb
  show (handle_alerts (a :: rest) s).alert_cooldown = _
  by_cases h : s.alert_cooldown ≤ 0
  · unfold handle_alerts handleAlertsLoop
    rw [if_pos h, handleAlertsLoop_suppressed _ _ (by norm_num)]
    rw [if_pos (by norm_num), if_pos h]
    norm_num
  · unfold handle_alerts
    rw [handleAlertsLoop_suppressed _ _ (by omega)]
    rw [if_pos (by omega), if_neg h]

/-- Alerts sent during one event-carrying frame: exactly one from
`Ready`, none while suppressed. -/
theorem step_sent (b : List String) (s : CtrlState) (hb : b ≠ []) :
    (surveillance_step b s).alerts_sent =
      if s.alert_cooldown ≤ 0 then s.alerts_sent + 1 else s.alerts_sent := by
  obtain ⟨a, rest, rfl⟩ := List.exists_cons_of_ne_nil hb
  show (handle_alerts (a :: rest) s).alerts_sent = _
  by_cases h : s.alert_cooldown ≤ 0
  · unfold handle_alerts handleAlertsLoop
    rw [if_pos h, handleAlertsLoop_suppressed _ _ (by norm_num)]
    rw [if_pos (by norm_num), if_pos h]
  · unfold handle_alerts
    rw [handleAlertsLoop_suppressed _ _ (by omega)]
    rw [if_pos (by omega), if_neg h]

/-- With a non-empty batch on every frame through 40, the cooldown
follows the trajectory `cseq`. -/
theorem stateAt_cooldown (batches : Nat → List String)
    (hb : ∀ i, i ≤ 40 → batches i ≠ []) :
    ∀ i, i ≤ 41 → (stateAt batches i).alert_cooldown = cseq i := by
  intro i
  induction i with
  | zero => intro _; rfl
  | succ n ih =>
    intro hn
    show (surveillance_step (batches n) (stateAt batches n)).alert_cooldown = _
    rw [step_cooldown _ _ (hb n (by omega)), ih (by omega)]
    rfl

/-! ## Claim C10 -/

/-- Claim C10 (confirmed).  `get_alert_message` returns each known
kind's fixed message, and the fixed string `'Unknown alert type'` for
every other kind; it never fails (it is a total function). -/
theorem get_alert_message_total_with_default :
    get_alert_message "motion_detected" = "Motion detected in surveillance area" ∧
    get_alert_message "intruder_detected" =
      "INTRUDER DETECTED - Immediate attention required" ∧
    get_alert_message "system_alert" = "Surveillance system alert" ∧
    ∀ t : String, t ≠ "motion_detected" → t ≠ "intruder_detected" →
      t ≠ "system_alert" → get_alert_message t = "Unknown alert type" := by
  refine ⟨rfl, rfl, rfl, ?_⟩
  intro t h1 h2 h3
  have e1 : (t == "motion_detected") = false := beq_eq_false_iff_ne.mpr h1
  have e2 : (t == "intruder_detected") = false := beq_eq_false_iff_ne.mpr h2
  have e3 : (t == "system_alert") = false := beq_eq_false_iff_ne.mpr h3
  simp [get_alert_message, alert_messages, List.lookup, e1, e2, e3]

/-- Witness for C10 at the concrete unknown kind `"door_opened"`. -/
theorem get_alert_message_total_with_default_witness :
    get_alert_message "door_opened" = "Unknown alert type" :=
  get_alert_message_total_with_default.2.2.2 "door_opened"
    (by decide) (by decide) (by decide)

/-! ## Claim C1 -/

/-- Counterexample to claim C1.  From `Ready` state with the two-kind
batch `["motion_detected", "intruder_detected"]`, the code does NOT
append one history entry per distinct kind, and does NOT leave the
cooldown at 30: only the first kind is sent (the reset to 30 suppresses
the rest of the same batch), and the trailing decrement leaves the
cooldown at 29. -/
theorem handle_alerts_not_one_alert_per_kind :
    (handle_alerts ["motion_detected", "intruder_detected"]
        initCtrlState).alert_history ≠
      [⟨"motion_detected", get_alert_message "motion_detected"⟩,
       ⟨"intruder_detected", get_alert_message "intruder_detected"⟩] ∧
    (handle_alerts ["motion_detected", "intruder_detected"]
        initCtrlState).alert_cooldown ≠ 30 := by
  constructor <;> decide

/-- Claim C1 as amended.  For a non-empty batch delivered in `Ready`
state, exactly one alert is emitted — for the first event of the batch
only (the reset to 30 suppresses the remaining events of the same
batch) — and by the end of the call the cooldown stands at 29 (set to
30, then decremented once before returning). -/
theorem handle_alerts_ready_first_event_only (a : String) (rest : List String)
    (s : CtrlState) (h : s.alert_cooldown ≤ 0) :
    handle_alerts (a :: rest) s =
      ⟨29, s.alert_history ++ [⟨a, get_alert_message a⟩], s.alerts_sent + 1⟩ := by
  unfold handle_alerts handleAlertsLoop
  rw [if_pos h, handleAlertsLoop_suppressed _ _ (by norm_num)]
  rw [if_pos (by norm_num)]
  rfl

/-- Witness for the amended C1: a single `"intruder_detected"` event in
the initial (Ready) state. -/
theorem handle_alerts_ready_first_event_only_witness :
    handle_alerts ["intruder_detected"] initCtrlState =
      ⟨29, [⟨"intruder_detected",
        "INTRUDER DETECTED - Immediate attention required"⟩], 1⟩ := by
  have h := handle_alerts_ready_first_event_only "intruder_detected" []
    initCtrlState (by decide)
  simpa using h

/-! ## Claim C2 -/

/-- Counterexample to claim C2.  With a positive cooldown (5) and a
frame carrying no events, `surveillance_loop` never calls
`handle_alerts` (`if alerts:` fails), so the counter is NOT
decremented: it stays at 5. -/
theorem cooldown_not_decremented_on_quiet_frame :
    0 < s5.alert_cooldown ∧
    (surveillance_step [] s5).alert_cooldown ≠ s5.alert_cooldown - 1 := by
  constructor <;> decide

/-- Claim C2 as amended.  While the cooldown is positive it is
decremented by exactly one on each processed frame that carries at
least one detection event; on frames with no events `handle_alerts` is
not invoked and the counter is unchanged. -/
theorem cooldown_decrement_only_on_event_frames (alerts : List String)
    (s : CtrlState) (h : 0 < s.alert_cooldown) :
    (surveillance_step alerts s).alert_cooldown =
      if alerts.isEmpty then s.alert_cooldown else s.alert_cooldown - 1 := by
  rcases alerts with _ | ⟨a, rest⟩
  · rfl
  · rw [step_cooldown (a :: rest) s (by simp), if_neg (by omega)]
    rfl

/-- Witness for the amended C2: cooldown 5, one-event frame, counter
ends at 4. -/
theorem cooldown_decrement_only_on_event_frames_witness :
    (surveillance_step ["motion_detected"] s5).alert_cooldown = 4 := by
  have h := cooldown_decrement_only_on_event_frames ["motion_detected"] s5
    (by decide)
  simpa using h

/-! ## Claim C3 -/

/-- Claim C3 (confirmed).  Starting from the initial state (cooldown 0),
if every frame 0..40 delivers a non-empty event batch, then alerts are
emitted exactly on frames 0 and 30 — never on frames 1–29 or 31–40. -/
theorem alerts_emitted_only_at_frames_0_and_30 (batches : Nat → List String)
    (hb : ∀ i, i ≤ 40 → batches i ≠ []) :
    ∀ i, i ≤ 40 → (emittedAt batches i ↔ i = 0 ∨ i = 30) := by
  intro i hi
  have hc : (stateAt batches i).alert_cooldown = cseq i :=
    stateAt_cooldown batches hb i (by omega)
  have hstep : (stateAt batches (i + 1)).alerts_sent =
      if (stateAt batches i).alert_cooldown ≤ 0 then
        (stateAt batches i).alerts_sent + 1
      else (stateAt batches i).alerts_sent :=
    step_sent _ _ (hb i hi)
  have hkey : emittedAt batches i ↔ cseq i ≤ 0 := by
    unfold emittedAt
    rw [hstep, hc]
    by_cases h : cseq i ≤ 0
    · simp [h]
    · simp [h]
  have htab : ∀ j : Fin 41, (cseq j.val ≤ 0 ↔ (j.val = 0 ∨ j.val = 30)) := by
    decide
  have := htab ⟨i, by omega⟩
  rw [hkey]
  exact this

/-- Witness for C3: with an event on every frame, frame 30 emits and
frame 29 does not. -/
theorem alerts_emitted_only_at_frames_0_and_30_witness :
    emittedAt (fun _ => ["motion_detected"]) 30 ∧
    ¬ emittedAt (fun _ => ["motion_detected"]) 29 := by
  have hb : ∀ i, i ≤ 40 → (fun _ => ["motion_detected"]) i ≠ [] :=
    fun _ _ => by simp
  constructor
  · exact (alerts_emitted_only_at_frames_0_and_30 _ hb 30 (by omega)).mpr
      (Or.inr rfl)
  · intro h
    have := (alerts_emitted_only_at_frames_0_and_30 _ hb 29 (by omega)).mp h
    omega

/-! ## Claim C4 -/

/-- Counterexample to claim C4.  On the 1×41 pure-red frame (with the
random draw failing), the detector DOES emit an intruder event, yet the
count of red pixels is only 41, far below 10000: the code triggers on
`np.sum(mask) > 10000` (mask entries are 255 per red pixel, so about 40
red pixels suffice), not on a pixel count above 10000. -/
theorem intruder_trigger_uses_mask_sum_not_pixel_count :
    ¬ (((detect_intruders cv0 fRed false).1 ≠ []) ↔
        (10000 < redPixelCountSpec fRed ∨ false = true)) := by
  decide

/-- Claim C4 as amended.  An intruder event (type `'person'`, confidence
0.85, the fixed demo location) is emitted iff the sum of the 0/255 red
mask — `np.sum(mask)` — exceeds 10000 (i.e. at least 40 red-mask
pixels), or the random draw succeeds; at most one event is appended per
call, never two. -/
theorem detect_intruders_events_iff (cv : CVPrims) (f : Frame) (draw : Bool) :
    ((detect_intruders cv f draw).1 = [] ∨
      (detect_intruders cv f draw).1 = [⟨"person", 85 / 100, get_demo_location⟩]) ∧
    ((detect_intruders cv f draw).1 ≠ [] ↔ (10000 < maskSum f ∨ draw = true)) := by
  unfold detect_intruders demo_intruder_detection
  by_cases h : 10000 < maskSum f
  · simp [h]
  · cases draw <;> simp [h]

/-! ## Helper lemmas about the motion loop -/

/-- The motion flag produced by the contour loop: true iff the initial
flag was true or some contour's area strictly exceeds the minimum. -/
theorem motionFold_fst (l : List Contour) (b : Bool) (fr : Frame) :
    (l.foldl motionStep (b, fr)).1 =
      (b || l.any fun c => decide (min_contour_area < c.area)) := by
  induction l generalizing b fr with
  | nil => simp
  | cons c t ih =>
    by_cases hc : min_contour_area < c.area
    · show (t.foldl motionStep (motionStep (b, fr) c)).1 = _
      rw [show motionStep (b, fr) c = (true,
        rectOutline fr c.rect.1 c.rect.2.1 (c.rect.1 + c.rect.2.2.1)
          (c.rect.2.1 + c.rect.2.2.2) (0, 255, 255)) from if_pos hc]
      rw [ih]
      simp [hc]
    · show (t.foldl motionStep (motionStep (b, fr) c)).1 = _
      rw [show motionStep (b, fr) c = (b, fr) from if_neg hc]
      rw [ih]
      simp [hc]

/-- If no contour strictly exceeds the minimum area, the loop changes
nothing: no motion flag, no rectangle drawn. -/
theorem motionFold_small (l : List Contour) (fr : Frame)
    (h : ∀ c ∈ l, c.area ≤ min_contour_area) :
    l.foldl motionStep (false, fr) = (false, fr) := by
  induction l with
  | nil => rfl
  | cons c t ih =>
    show t.foldl motionStep (motionStep (false, fr) c) = _
    rw [show motionStep (false, fr) c = (false, fr) from
      if_neg (not_lt.mpr (h c (by simp)))]
    exact ih fun d hd => h d (by simp [hd])

/-! ## Claim C5 -/

/-- Claim C5 (confirmed).  On a post-first-call frame (matching buffer
dimensions), the motion flag is exactly "some contour's area is
STRICTLY greater than `min_contour_area`"; in particular, when every
contour's area is at most the minimum — e.g. exactly equal to it — no
motion is reported and no rectangle is drawn (the motion frame comes
back pixel-identical to the input). -/
theorem contour_area_equal_threshold_excluded (cv : CVPrims) (pf : GrayImg)
    (frame : Frame) (hh : pf.h = frame.h) (hw : pf.w = frame.w) :
    motionOf (detect_motion cv (some pf) frame) =
      some ((motionContours cv pf frame).any fun c =>
        decide (min_contour_area < c.area)) ∧
    ((∀ c ∈ motionContours cv pf frame, c.area ≤ min_contour_area) →
      detect_motion cv (some pf) frame =
        .ok (false, frame, some (cv.gaussianBlur (cvtColorGray frame)))) := by
  have habs : absdiff pf (cv.gaussianBlur (cvtColorGray frame)) =
      .ok (absdiffImg pf (cv.gaussianBlur (cvtColorGray frame))) := by
    unfold absdiff
    rw [if_pos]
    exact ⟨by rw [cv.blur_h]; exact hh, by rw [cv.blur_w]; exact hw⟩
  constructor
  · simp only [detect_motion, habs, motionOf]
    show some ((motionContours cv pf frame).foldl motionStep (false, frame)).1 = _
    rw [motionFold_fst]
    simp
  · intro hsmall
    simp only [detect_motion, habs]
    show Except.ok
      (((motionContours cv pf frame).foldl motionStep (false, frame)).1,
       ((motionContours cv pf frame).foldl motionStep (false, frame)).2,
       some (cv.gaussianBlur (cvtColorGray frame))) = _
    rw [motionFold_small _ _ hsmall]

/-- Witness for C5: trivial contour extractor (no contours — vacuously
all areas are at most 500), 1×1 frames: no motion, frame unchanged. -/
theorem contour_area_equal_threshold_excluded_witness :
    detect_motion cv0 (some pf0) f1x1 =
      .ok (false, f1x1, some (cv0.gaussianBlur (cvtColorGray f1x1))) :=
  (contour_area_equal_threshold_excluded cv0 pf0 f1x1 rfl rfl).2
    (fun c hc => absurd hc (List.not_mem_nil c))

/-! ## Claim C6 -/

/-- Claim C6 (confirmed).  On the very first call (no previous-frame
buffer), `detect_motion` reports no motion, returns the (un-drawn-on)
copy of the frame, and stores the smoothed grayscale of the frame as
the buffer for the next call. -/
theorem first_frame_no_motion_stores_blurred_gray (cv : CVPrims) (frame : Frame) :
    detect_motion cv none frame =
      .ok (false, frame, some (cv.gaussianBlur (cvtColorGray frame))) := rfl

/-! ## Claim C7 -/

/-- Claim C7 (confirmed).  After a first call on `first`, the buffer
holds the smoothed grayscale of `first` (same dimensions as `first`);
a later frame of different dimensions makes the pixel difference
(`cv2.absdiff`) fail, and `detect_motion` surfaces that error
immediately — no retry, no fallback. -/
theorem dimension_mismatch_error_on_size_change (cv : CVPrims)
    (first frame : Frame) (hdim : frame.h ≠ first.h ∨ frame.w ≠ first.w) :
    detect_motion cv (some (cv.gaussianBlur (cvtColorGray first))) frame =
      .error .dimensionMismatch := by
  have habs : absdiff (cv.gaussianBlur (cvtColorGray first))
      (cv.gaussianBlur (cvtColorGray frame)) = .error .dimensionMismatch := by
    unfold absdiff
    rw [if_neg]
    rw [cv.blur_h, cv.blur_w, cv.blur_h, cv.blur_w]
    show ¬ ((cvtColorGray first).h = (cvtColorGray frame).h ∧
      (cvtColorGray first).w = (cvtColorGray frame).w)
    rintro ⟨h1, h2⟩
    rcases hdim with h | h
    · exact h h1.symm
    · exact h h2.symm
  simp only [detect_motion, habs]

/-- Witness for C7: a 1×1 first frame followed by a 2×2 frame. -/
theorem dimension_mismatch_error_on_size_change_witness :
    detect_motion cv0 (some (cv0.gaussianBlur (cvtColorGray f1x1))) f2x2 =
      .error .dimensionMismatch :=
  dimension_mismatch_error_on_size_change cv0 f1x1 f2x2 (Or.inl (by decide))

/-! ## Claim C8 -/

/-- Counterexample to claim C8.  Same frame (all black), same starting
state (fresh pipeline, no buffer), but opposite outcomes of the
stochastic draw `random.random() < 0.02`: the two calls yield different
event sets (one has an intruder event, the other none).  The per-frame
decision is therefore NOT a deterministic function of the frame and the
carried state alone. -/
theorem process_frame_depends_on_random_draw :
    alertsOf (process_frame cv0 none stats0 fBlack true) ≠
      alertsOf (process_frame cv0 none stats0 fBlack false) := by
  decide

/-- Claim C8 as amended.  Given the frame and the carried state, the
event set is determined by the outcome of the stochastic draw: two
(successful) runs yield identical event sets exactly when the red-mask
sum exceeds its threshold (making the draw irrelevant) or the two draws
agree. -/
theorem process_frame_deterministic_given_draw (cv : CVPrims)
    (prev : Option GrayImg) (stats : Stats) (frame : Frame) (d1 d2 : Bool)
    (h : ∃ r, process_frame cv prev stats frame d1 = .ok r) :
    (alertsOf (process_frame cv prev stats frame d1) =
      alertsOf (process_frame cv prev stats frame d2)) ↔
    (10000 < maskSum frame ∨ d1 = d2) := by
  obtain ⟨r, hr⟩ := h
  cases hm : detect_motion cv prev frame with
  | error e =>
    simp only [process_frame, hm] at hr
    exact Except.noConfusion hr
  | ok trip =>
    obtain ⟨md, mf, pb⟩ := trip
    simp only [process_frame, hm, alertsOf, detect_intruders,
      demo_intruder_detection]
    by_cases hs : 10000 < maskSum frame
    · simp [hs]
    · cases md <;> cases d1 <;> cases d2 <;> simp [hs]

/-- Witness for the amended C8: on the pure-red frame the mask-sum
condition holds, so opposite draws still give the same event set. -/
theorem process_frame_deterministic_given_draw_witness :
    alertsOf (process_frame cv0 none stats0 fRed true) =
      alertsOf (process_frame cv0 none stats0 fRed false) :=
  (process_frame_deterministic_given_draw cv0 none stats0 fRed true false
    ⟨_, rfl⟩).mpr (Or.inl (by decide))

/-! ## Helper lemmas about the overlay -/

/-- `cv2.putText` leaves a pixel alone when it lies at least 31 rows
above the text origin. -/
theorem putText_skip_y (cv : CVPrims) (f : Frame) (org : Nat × Nat)
    (t : String) (c : Pix) (y x : Nat) (hy : y + 31 ≤ org.2) :
    (cv.putText f org t c).px y x = f.px y x := by
  by_contra hne
  have h := cv.putText_local f org t c y x hne
  omega

/-- `cv2.putText` leaves a pixel alone when it lies beyond the maximal
horizontal extent of the rendered string. -/
theorem putText_skip_x (cv : CVPrims) (f : Frame) (org : Nat × Nat)
    (t : String) (c : Pix) (y x : Nat) (hx : org.1 + 30 * t.length < x) :
    (cv.putText f org t c).px y x = f.px y x := by
  by_contra hne
  have h := cv.putText_local f org t c y x hne
  omega

/-- The status banner string is at most 18 characters when at most one
intruder is reported. -/
theorem statusOf_length_le (md : Bool) (n : Nat) (hn : n ≤ 1) :
    (statusOf md n).length ≤ 18 := by
  rcases n with _ | _ | n
  · cases md <;> decide
  · cases md <;> decide
  · omega

/-- `detect_intruders` appends at most one intruder per call. -/
theorem detect_intruders_length_le_one (cv : CVPrims) (f : Frame) (d : Bool) :
    (detect_intruders cv f d).1.length ≤ 1 := by
  by_cases h : demo_intruder_detection f d <;> simp [detect_intruders, h]

/-- The load-bearing fact behind claims about frame mutation: after a
successful `process_frame`, the caller's frame carries the status
banner — pixel (row 35, column 600) is black, although `overlay_info`
was never given a copy.  (That pixel lies inside the banner rectangle
and away from every text write.) -/
theorem process_frame_caller_banner (cv : CVPrims) (prev : Option GrayImg)
    (stats : Stats) (frame : Frame) (draw : Bool) (r : ProcResult)
    (h : process_frame cv prev stats frame draw = .ok r) :
    r.callerFrame.px 35 600 = (0, 0, 0) := by
  cases hm : detect_motion cv prev frame with
  | error e =>
    simp only [process_frame, hm] at h
    exact Except.noConfusion h
  | ok trip =>
    obtain ⟨md, mf, pb⟩ := trip
    simp only [process_frame, hm, Except.ok.injEq] at h
    subst h
    show (overlay_info cv _ _ md (detect_intruders cv frame draw).1.length).px
      35 600 = (0, 0, 0)
    simp only [overlay_info]
    rw [putText_skip_y cv _ (10, 460) _ _ 35 600 (by norm_num)]
    rw [putText_skip_x cv _ (10, 25) _ _ 35 600 ?hx]
    case hx =>
      have hlen := statusOf_length_le md _ (detect_intruders_length_le_one cv frame draw)
      show 10 + 30 * (statusOf md (detect_intruders cv frame draw).1.length).length < 600
      omega
    simp only [rectFilled]
    rw [if_pos (by omega)]

/-! ## Claim C9 -/

/-- Counterexample to claim C9.  On a uniform (30,30,30) 480×640 frame,
a successful `process_frame` does NOT leave the caller's frame
unchanged: `overlay_info` (and `draw_detections`) draw directly on the
frame passed in, so the banner pixel at row 35, column 600 turns black
in the caller's own buffer. -/
theorem process_frame_mutates_caller_frame :
    ¬ frameLeftUnchanged cv0 none stats0 fGrey false := by
  intro hcl
  obtain ⟨r, hr⟩ : ∃ r, process_frame cv0 none stats0 fGrey false = .ok r :=
    ⟨_, rfl⟩
  have h1 := hcl r hr
  have h2 := process_frame_caller_banner cv0 none stats0 fGrey false r hr
  rw [h1] at h2
  exact absurd h2 (by decide)

/-- Claim C9 as amended.  The input frame is NOT left unchanged: only
the motion analyzer draws on a copy, while `draw_detections` and
`overlay_info` draw directly on the caller's frame — after any
successful `process_frame`, the caller's frame carries the status
banner (its pixel at row 35, column 600 is black). -/
theorem caller_frame_banner_overwritten (cv : CVPrims) (prev : Option GrayImg)
    (stats : Stats) (frame : Frame) (draw : Bool) (r : ProcResult)
    (h : process_frame cv prev stats frame draw = .ok r) :
    r.callerFrame.px 35 600 = (0, 0, 0) :=
  process_frame_caller_banner cv prev stats frame draw r h

/-- Witness for the amended C9 on the concrete grey demo frame. -/
theorem caller_frame_banner_overwritten_witness :
    callerAt (process_frame cv0 none stats0 fGrey false) 35 600 =
      some (0, 0, 0) := by
  obtain ⟨r, hr⟩ : ∃ r, process_frame cv0 none stats0 fGrey false = .ok r :=
    ⟨_, rfl⟩
  rw [hr]
  show some (r.callerFrame.px 35 600) = some (0, 0, 0)
  exact congrArg some
    (caller_frame_banner_overwritten cv0 none stats0 fGrey false r hr)

end Surveillance
